import Mathlib

/-!
Verification development for the CECS Co-op Portal (src/app.py, src/models.py).

The data model mirrors models.py: SQLAlchemy columns become structure fields,
nullable columns become Option types, and DateTime audit columns (created_at,
applied_at, selected_at, checked_at, updated_at) are outside the model since no
verified property reads them.  Float GPA values are embedded as exact rationals
(the comparisons performed by the code are order comparisons that floats decide
exactly on the values involved).  Each Flask view function becomes a function
from a database state and a session to a new database state; a result of none
models a request that raises an uncaught exception (attribute access on a
missing relationship), in which case nothing is committed.
-/

namespace CoopPortal

/-- The three session roles handled by current_user in app.py. -/
inductive Role where
  | student
  | employer
  | faculty
deriving DecidableEq, Repr

/-- Row of the students table (models.py, class Student). -/
structure Student where
  id : String
  name : String
  email : String
  department : String
  major : String
  credits_completed : Int
  gpa : Option ℚ
  start_semester : Option String
  start_year : Option Int
  is_transfer : Bool
deriving DecidableEq, Repr

/-- Row of the employers table (models.py, class Employer). -/
structure Employer where
  id : String
  company_name : String
  contact_name : String
  email : String
  location : String
  website : String
deriving DecidableEq, Repr

/-- Row of the faculty table (models.py, class Faculty). -/
structure Faculty where
  id : String
  name : String
  email : String
  department : String
deriving DecidableEq, Repr

/-- Row of the job_positions table (models.py, class JobPosition). -/
structure JobPosition where
  id : String
  employer_id : String
  title : String
  description : Option String
  location : Option String
  weeks : Option Int
  hours_per_week : Option Int
  total_hours : Option Int
  majors_of_interest : Option String
  required_skills : Option String
  preferred_skills : Option String
  salary_info : Option String
  status : Option String
deriving DecidableEq, Repr

/-- Row of the applications table (models.py, class Application). -/
structure Application where
  id : Nat
  student_id : String
  position_id : String
  status : String
deriving DecidableEq, Repr

/-- Row of the selections table (models.py, class Selection). -/
structure Selection where
  id : Nat
  application_id : Nat
  offer_letter_filename : Option String
deriving DecidableEq, Repr

/-- Row of the coop_eligibility table (models.py, class CoopEligibility). -/
structure CoopEligibility where
  id : Nat
  application_id : Nat
  is_eligible : Bool
  gpa_ok : Bool
  weeks_ok : Bool
  hours_ok : Bool
  semesters_ok : Bool
deriving DecidableEq, Repr

/-- Row of the coop_records table (models.py, class CoopRecord). -/
structure CoopRecord where
  id : Nat
  application_id : Nat
  student_id : String
  position_id : String
  eligibility_id : Option Nat
  faculty_id : Option String
  student_interested : Bool
  summary_text : Option String
  summary_status : String
  employer_approval : String
  faculty_grade : Option String
deriving DecidableEq, Repr

/-- The persistence store: the full set of tables of models.py. -/
structure DB where
  students : List Student
  employers : List Employer
  faculty : List Faculty
  positions : List JobPosition
  applications : List Application
  selections : List Selection
  eligibilities : List CoopEligibility
  coop_records : List CoopRecord
deriving DecidableEq, Repr

/-- A message handed to send_email in app.py (the notification sink). -/
structure Email where
  to_email : String
  subject : String
  body : String
deriving DecidableEq, Repr

/-- The tuple returned by check_eligibility in app.py, with named components. -/
structure EligibilityResult where
  is_eligible : Bool
  gpa_ok : Bool
  weeks_ok : Bool
  hours_ok : Bool
  semesters_ok : Bool
deriving DecidableEq, Repr

/-- Python truthiness of a nullable integer column: None and 0 are falsy. -/
def truthyInt : Option Int → Bool
  | none => false
  | some n => decide (n ≠ 0)

/-- app.py, check_eligibility (lines 52-90): the four-factor eligibility
check.  hours follows the source exactly: total_hours or 0, then derived from
weeks * hours_per_week only when that is zero and both factors are truthy. -/
def check_eligibility (student : Student) (position : JobPosition) : EligibilityResult :=
  let gpa_ok : Bool :=
    match student.gpa with
    | none => false
    | some g => decide (g ≥ 2)
  let weeks_ok : Bool :=
    match position.weeks with
    | none => false
    | some w => decide (w ≥ 7)
  let hours0 : Int := position.total_hours.getD 0
  let hours : Int :=
    if hours0 = 0 ∧ truthyInt position.weeks = true ∧ truthyInt position.hours_per_week = true then
      position.weeks.getD 0 * position.hours_per_week.getD 0
    else hours0
  let hours_ok : Bool := decide (hours ≥ 140)
  let semesters_ok : Bool :=
    if student.is_transfer then
      student.start_year.isSome
    else
      student.start_year.isSome
  let is_eligible : Bool := gpa_ok && weeks_ok && hours_ok && semesters_ok
  { is_eligible := is_eligible, gpa_ok := gpa_ok, weeks_ok := weeks_ok,
    hours_ok := hours_ok, semesters_ok := semesters_ok }

/-- The logged-in user as seen by a route: current_user may return a role with
no user object when the session id no longer resolves to a row. -/
inductive UserObj where
  | student (s : Student)
  | employer (e : Employer)
  | faculty (f : Faculty)
deriving DecidableEq, Repr

/-- The Flask session, reduced to the keys the routes read: role and user_id. -/
abbrev Session := Option (Role × String)

def findStudent (db : DB) (uid : String) : Option Student :=
  db.students.find? (fun s => s.id == uid)

def findEmployer (db : DB) (uid : String) : Option Employer :=
  db.employers.find? (fun e => e.id == uid)

def findFaculty (db : DB) (uid : String) : Option Faculty :=
  db.faculty.find? (fun f => f.id == uid)

def findApplication (db : DB) (app_id : Nat) : Option Application :=
  db.applications.find? (fun a => a.id == app_id)

def findPosition (db : DB) (pid : String) : Option JobPosition :=
  db.positions.find? (fun p => p.id == pid)

/-- The CoopEligibility row backing application.eligibility (1-1 relationship). -/
def findEligibilityByApp (db : DB) (app_id : Nat) : Option CoopEligibility :=
  db.eligibilities.find? (fun e => e.application_id == app_id)

/-- The CoopRecord row backing application.coop_record (1-1 relationship). -/
def findCoopRecordByApp (db : DB) (app_id : Nat) : Option CoopRecord :=
  db.coop_records.find? (fun c => c.application_id == app_id)

/-- app.py, current_user (lines 34-49): returns the session role together with
the user row it resolves to; the row may be absent even when a role is set. -/
def current_user (db : DB) (sess : Session) : Option Role × Option UserObj :=
  match sess with
  | none => (none, none)
  | some (Role.student, uid) => (some Role.student, (findStudent db uid).map UserObj.student)
  | some (Role.employer, uid) => (some Role.employer, (findEmployer db uid).map UserObj.employer)
  | some (Role.faculty, uid) => (some Role.faculty, (findFaculty db uid).map UserObj.faculty)

/-- SQLite autoincrement for the applications table. -/
def nextApplicationId (db : DB) : Nat :=
  (db.applications.map (fun a => a.id)).foldl max 0 + 1

/-- SQLite autoincrement for the selections table. -/
def nextSelectionId (db : DB) : Nat :=
  (db.selections.map (fun s => s.id)).foldl max 0 + 1

/-- SQLite autoincrement for the coop_eligibility table. -/
def nextEligibilityId (db : DB) : Nat :=
  (db.eligibilities.map (fun e => e.id)).foldl max 0 + 1

/-- SQLite autoincrement for the coop_records table. -/
def nextCoopRecordId (db : DB) : Nat :=
  (db.coop_records.map (fun c => c.id)).foldl max 0 + 1

/-- app.py, apply_to_position (lines 332-348).  The second component of the
result collects the flash messages of the request; none models a crash. -/
def apply_to_position (db : DB) (sess : Session) (position_id : String) :
    Option (DB × List String) :=
  let rc := current_user db sess
  if rc.1 ≠ some Role.student then some (db, []) else
  match findPosition db position_id with
  | none => some (db, [])
  | some position =>
    match rc.2 with
    | some (UserObj.student user) =>
      match db.applications.find?
          (fun a => a.student_id == user.id && a.position_id == position.id) with
      | some _ => some (db, ["You already applied to this position."])
      | none =>
        let app_obj : Application :=
          { id := nextApplicationId db, student_id := user.id,
            position_id := position.id, status := "Pending" }
        some ({ db with applications := db.applications ++ [app_obj] },
          ["Application submitted."])
    | _ => none

/-- app.py, withdraw_application (lines 363-376). -/
def withdraw_application (db : DB) (sess : Session) (app_id : Nat) : Option DB :=
  let rc := current_user db sess
  if rc.1 ≠ some Role.student then some db else
  match findApplication db app_id with
  | none => some db
  | some app_obj =>
    match rc.2 with
    | some (UserObj.student user) =>
      if app_obj.student_id ≠ user.id then some db
      else
        let apps := db.applications.map
          (fun a => if a.id == app_obj.id then { a with status := "Withdrawn" } else a)
        some { db with applications := apps }
    | _ => none

/-- app.py, indicate_interest (lines 379-409). -/
def indicate_interest (db : DB) (sess : Session) (app_id : Nat) : Option DB :=
  let rc := current_user db sess
  if rc.1 ≠ some Role.student then some db else
  match findApplication db app_id with
  | none => some db
  | some app_obj =>
    match rc.2 with
    | some (UserObj.student user) =>
      if app_obj.student_id ≠ user.id then some db
      else
        match findEligibilityByApp db app_obj.id with
        | none => some db
        | some elig =>
          if elig.is_eligible = false then some db
          else
            match findCoopRecordByApp db app_obj.id with
            | some cr =>
              let recs := db.coop_records.map
                (fun c => if c.id == cr.id then { c with student_interested := true } else c)
              some { db with coop_records := recs }
            | none =>
              let cr : CoopRecord :=
                { id := nextCoopRecordId db, application_id := app_obj.id,
                  student_id := user.id, position_id := app_obj.position_id,
                  eligibility_id := some elig.id, faculty_id := none,
                  student_interested := true, summary_text := none,
                  summary_status := "Draft", employer_approval := "Pending",
                  faculty_grade := none }
              some { db with coop_records := db.coop_records ++ [cr] }
    | _ => none

/-- The request shape of the submit_summary view: a GET renders the form, a
POST carries the optional summary text and action form fields. -/
inductive SummaryReq where
  | get
  | post (summary : Option String) (action : Option String)
deriving DecidableEq, Repr

/-- app.py, submit_summary (lines 412-447).  Opening the form lazily creates
the CoopRecord with student_interested pre-set to true and eligibility_id set
by getattr(application.eligibility, "id", None). -/
def submit_summary (db : DB) (sess : Session) (app_id : Nat) (req : SummaryReq) :
    Option DB :=
  let rc := current_user db sess
  if rc.1 ≠ some Role.student then some db else
  match findApplication db app_id with
  | none => some db
  | some application =>
    match rc.2 with
    | some (UserObj.student user) =>
      if application.student_id ≠ user.id then some db
      else
        let db1 : DB :=
          match findCoopRecordByApp db application.id with
          | some _ => db
          | none =>
            let cr : CoopRecord :=
              { id := nextCoopRecordId db, application_id := application.id,
                student_id := user.id, position_id := application.position_id,
                eligibility_id := (findEligibilityByApp db application.id).map
                  (fun e => e.id),
                faculty_id := none, student_interested := true, summary_text := none,
                summary_status := "Draft", employer_approval := "Pending",
                faculty_grade := none }
            { db with coop_records := db.coop_records ++ [cr] }
        match req with
        | SummaryReq.get => some db1
        | SummaryReq.post summary action =>
          match findCoopRecordByApp db1 application.id with
          | none => none
          | some cr =>
            let st : String := if action == some "submit" then "Submitted" else "Draft"
            let recs := db1.coop_records.map
              (fun c => if c.id == cr.id then
                { c with summary_text := summary, summary_status := st } else c)
            some { db1 with coop_records := recs }
    | _ => none

/-- The notification emitted by employer_select for an eligible student. -/
def selectionEmail (student : Student) (position : JobPosition) (employer : Employer) :
    Email :=
  { to_email := student.email,
    subject := "CECS Co-op Portal: You have been selected and are eligible",
    body := "Hello " ++ student.name ++ ",\n\n" ++
      "You have been selected for the position " ++ position.title ++ " at " ++
      employer.company_name ++ ".\n" ++
      "Our records show you meet the eligibility requirements for co-op credit.\n\n" ++
      "If you are interested in receiving co-op credit, please log in to the portal and indicate your interest.\n\n" ++
      "- CECS Co-op Portal" }

/-- app.py, employer_select (lines 541-582).  Note: the route checks only the
employer role; it never compares position.employer_id with the session user,
and it never inspects application.status.  An is_eligible result triggers the
notification email; if the employer row backing position.employer is missing,
the email construction raises after the commit, so the database is updated and
no email is emitted. -/
def employer_select (db : DB) (sess : Session) (app_id : Nat) :
    Option (DB × List Email) :=
  let rc := current_user db sess
  if rc.1 ≠ some Role.employer then some (db, []) else
  match findApplication db app_id with
  | none => some (db, [])
  | some application =>
    match findPosition db application.position_id, findStudent db application.student_id with
    | some position, some student =>
      let r := check_eligibility student position
      let application2 : Application := { application with status := "Selected" }
      let position2 : JobPosition := { position with status := some "Pending" }
      let selection : Selection :=
        { id := nextSelectionId db, application_id := application.id,
          offer_letter_filename := none }
      let eligibility : CoopEligibility :=
        { id := nextEligibilityId db, application_id := application.id,
          is_eligible := r.is_eligible, gpa_ok := r.gpa_ok, weeks_ok := r.weeks_ok,
          hours_ok := r.hours_ok, semesters_ok := r.semesters_ok }
      let apps := db.applications.map
        (fun a => if a.id == application.id then application2 else a)
      let poss := db.positions.map
        (fun p => if p.id == position.id then position2 else p)
      let db2 : DB :=
        { db with
          applications := apps,
          positions := poss,
          selections := db.selections ++ [selection],
          eligibilities := db.eligibilities ++ [eligibility] }
      let emails : List Email :=
        if r.is_eligible then
          match findEmployer db position.employer_id with
          | some employer => [selectionEmail student position employer]
          | none => []
        else []
      some (db2, emails)
    | _, _ => none

/-- app.py, employer_reject (lines 585-595).  Only the role is checked; the
status assignment is unconditional and nothing else is touched. -/
def employer_reject (db : DB) (sess : Session) (app_id : Nat) : DB :=
  let rc := current_user db sess
  if rc.1 ≠ some Role.employer then db else
  match findApplication db app_id with
  | none => db
  | some application =>
    let apps := db.applications.map
      (fun a => if a.id == application.id then { a with status := "Rejected" } else a)
    { db with applications := apps }

/-!
Concrete fixtures used by witnesses and counterexamples.
-/

/-- A student matching the end-to-end scenario of the spec (gpa 3.0, start 2022). -/
def stuA : Student :=
  { id := "STU-2025-0001", name := "Alice", email := "alice@example.edu",
    department := "CECS", major := "CS", credits_completed := 60,
    gpa := some (mkRat 3 1), start_semester := some "Fall", start_year := some 2022,
    is_transfer := false }

/-- The same student with a 1.9 GPA. -/
def stu19 : Student := { stuA with gpa := some (mkRat 19 10) }

def empA : Employer :=
  { id := "EMP-2025-0001", company_name := "Acme", contact_name := "Bob",
    email := "bob@acme.example", location := "Long Beach", website := "acme.example" }

/-- A second employer, who owns no position in the fixtures. -/
def empB : Employer :=
  { id := "EMP-2025-0002", company_name := "Globex", contact_name := "Carol",
    email := "carol@globex.example", location := "LA", website := "globex.example" }

/-- Position of empA, matching the end-to-end scenario (weeks 10, 15 h/week). -/
def posA : JobPosition :=
  { id := "POS-2025-0001", employer_id := "EMP-2025-0001", title := "Dev Intern",
    description := none, location := some "Long Beach", weeks := some 10,
    hours_per_week := some 15, total_hours := some 150, majors_of_interest := none,
    required_skills := none, preferred_skills := none, salary_info := none,
    status := some "Open" }

/-- The boundary position of the spec: weeks 7, 20 h/week, total_hours unset. -/
def posBoundary : JobPosition :=
  { posA with weeks := some 7, hours_per_week := some 20, total_hours := none }

def appA : Application :=
  { id := 1, student_id := "STU-2025-0001", position_id := "POS-2025-0001",
    status := "Pending" }

/-- The same application already withdrawn. -/
def appW : Application := { appA with status := "Withdrawn" }

/-- Fixture database: one student, two employers, one open position, one
pending application, and no selection, eligibility or co-op record yet. -/
def dbA : DB :=
  { students := [stuA], employers := [empA, empB], faculty := [],
    positions := [posA], applications := [appA], selections := [],
    eligibilities := [], coop_records := [] }

/-- Fixture database whose only application is already withdrawn. -/
def dbW : DB := { dbA with applications := [appW] }

/-!
Helper lemmas.
-/

/-- Rewriting exactly the elements satisfying q through g, where q agrees with
the search predicate p and g preserves p on the first p-match, turns that
first match into its image under g. -/
lemma find?_map_update {α : Type} (l : List α) (p q : α → Bool) (a : α) (g : α → α)
    (h : l.find? p = some a) (hpq : ∀ x, q x = p x) (hb : p (g a) = true) :
    (l.map (fun x => if q x then g x else x)).find? p = some (g a) := by
  induction l with
  | nil => simp at h
  | cons x xs ih =>
    by_cases hx : p x = true
    · have hax : x = a := by
        rw [List.find?_cons_of_pos _ hx] at h
        exact Option.some.inj h
      simp only [List.map_cons]
      rw [if_pos (by rw [hpq]; exact hx), hax]
      exact List.find?_cons_of_pos _ hb
    · have hx2 : ¬ (p x = true) := hx
      rw [List.find?_cons_of_neg _ hx2] at h
      simp only [List.map_cons]
      rw [if_neg (by rw [hpq]; exact hx2)]
      rw [List.find?_cons_of_neg _ hx2]
      exact ih h

/-!
Claim theorems.
-/

/-- Claim C1: for every Student and JobPosition the overall verdict of
check_eligibility equals the conjunction of the four sub-check booleans, and
any student whose stored GPA is 1.9 (the rational 19/10) gets gpa_ok = false
and an overall false verdict, whatever the other factors are. -/
theorem C1_verdict_and_of_subchecks (s : Student) (p : JobPosition) :
    ((check_eligibility s p).is_eligible =
      ((check_eligibility s p).gpa_ok && (check_eligibility s p).weeks_ok &&
        (check_eligibility s p).hours_ok && (check_eligibility s p).semesters_ok)) ∧
    (s.gpa = some (mkRat 19 10) →
      (check_eligibility s p).gpa_ok = false ∧
      (check_eligibility s p).is_eligible = false) := by
  constructor
  · rfl
  · intro h
    have hg : (check_eligibility s p).gpa_ok = false := by
      simp only [check_eligibility, h]
      rfl
    refine ⟨hg, ?_⟩
    simp only [check_eligibility, h]
    rfl

/-- Witness for C1: a concrete student with GPA 1.9 is rejected overall. -/
theorem C1_low_gpa_witness :
    (check_eligibility stu19 posA).gpa_ok = false ∧
    (check_eligibility stu19 posA).is_eligible = false :=
  (C1_verdict_and_of_subchecks stu19 posA).2 rfl

/-- The effective total hours as the spec words them: the stored total_hours
when present and nonzero, otherwise weeks times hours_per_week (absent factors
contributing zero). -/
def effective_hours_spec (p : JobPosition) : Int :=
  match p.total_hours with
  | some t => if t ≠ 0 then t else p.weeks.getD 0 * p.hours_per_week.getD 0
  | none => p.weeks.getD 0 * p.hours_per_week.getD 0

/-- Claim C5: hours_ok holds exactly when the effective total hours reach 140,
and on the boundary position (weeks 7, 20 hours per week, total_hours unset)
the derived hours are exactly 140 so hours_ok holds. -/
theorem C5_hours_ok_iff_effective_hours (s : Student) (p : JobPosition) :
    ((check_eligibility s p).hours_ok = true ↔ 140 ≤ effective_hours_spec p) ∧
    effective_hours_spec posBoundary = 140 ∧
    (check_eligibility s posBoundary).hours_ok = true := by
  refine ⟨?_, by rfl, by rfl⟩
  cases ht : p.total_hours with
  | none =>
    cases hw : p.weeks with
    | none =>
      simp [check_eligibility, effective_hours_spec, truthyInt, ht, hw]
    | some w =>
      cases hh : p.hours_per_week with
      | none =>
        simp [check_eligibility, effective_hours_spec, truthyInt, ht, hw, hh]
      | some v =>
        by_cases hw0 : w = 0
        · simp [check_eligibility, effective_hours_spec, truthyInt, ht, hw, hh, hw0]
        · by_cases hv0 : v = 0
          · simp [check_eligibility, effective_hours_spec, truthyInt, ht, hw, hh, hv0]
          · simp [check_eligibility, effective_hours_spec, truthyInt, ht, hw, hh, hw0, hv0]
  | some t =>
    by_cases h0 : t = 0
    · cases hw : p.weeks with
      | none =>
        simp [check_eligibility, effective_hours_spec, truthyInt, ht, hw, h0]
      | some w =>
        cases hh : p.hours_per_week with
        | none =>
          simp [check_eligibility, effective_hours_spec, truthyInt, ht, hw, hh, h0]
        | some v =>
          by_cases hw0 : w = 0
          · simp [check_eligibility, effective_hours_spec, truthyInt, ht, hw, hh, h0, hw0]
          · by_cases hv0 : v = 0
            · simp [check_eligibility, effective_hours_spec, truthyInt, ht, hw, hh, h0, hv0]
            · simp [check_eligibility, effective_hours_spec, truthyInt, ht, hw, hh, h0, hw0, hv0]
    · simp [check_eligibility, effective_hours_spec, truthyInt, ht, h0]

/-- Witness for C5: the boundary position from the spec passes hours_ok. -/
theorem C5_boundary_witness : (check_eligibility stuA posBoundary).hours_ok = true :=
  (C5_hours_ok_iff_effective_hours stuA posBoundary).2.2

/-- Claim C9: check_eligibility never reads the transfer flag in a way that
matters: flipping is_transfer on any student leaves the whole result tuple
unchanged, and semesters_ok is exactly presence of start_year. -/
theorem C9_transfer_flag_irrelevant (s : Student) (p : JobPosition) (b : Bool) :
    check_eligibility { s with is_transfer := b } p = check_eligibility s p ∧
    (check_eligibility s p).semesters_ok = s.start_year.isSome := by
  constructor
  · cases b <;> cases hs : s.is_transfer <;> simp [check_eligibility]
  · cases hs : s.is_transfer <;> simp [check_eligibility, hs]

/-- Claim C2, refuted by the code: employer_select has no guard on the current
application status.  Starting from a database whose only application is
already Withdrawn (a terminal state), a logged-in employer session still moves
it to Selected, creates a Selection row and stores a CoopEligibility snapshot:
the selection side effects all happen. -/
theorem C2_select_ignores_terminal_status :
    appW.status = "Withdrawn" ∧ dbW.applications = [appW] ∧
    dbW.selections = [] ∧ dbW.eligibilities = [] ∧
    (employer_select dbW (some (Role.employer, "EMP-2025-0001")) 1).map
      (fun r => ((findApplication r.1 1).map (fun a => a.status),
        r.1.selections.length, r.1.eligibilities.length)) =
    some (some "Selected", 1, 1) :=
  ⟨rfl, rfl, rfl, rfl, rfl⟩

/-- Claim C3, refuted by the code: opening the summary form (a GET on
submit_summary) on an application that has no CoopEligibility at all creates a
CoopRecord with student_interested = true and eligibility_id = none, so a
record with the interest flag set exists without any positive eligibility
snapshot, and state was mutated rather than the request being rejected. -/
theorem C3_summary_form_bypasses_eligibility :
    dbA.eligibilities = [] ∧ dbA.coop_records = [] ∧
    (submit_summary dbA (some (Role.student, "STU-2025-0001")) 1 SummaryReq.get).map
      (fun d => (findCoopRecordByApp d 1).map
        (fun c => (c.student_interested, c.eligibility_id))) =
    some (some (true, none)) :=
  ⟨rfl, rfl, rfl⟩

/-- Any existing Application row for the same (student, position) pair makes a
further apply return the advisory flash and leave the database untouched. -/
lemma apply_blocked_by_existing (db : DB) (uid : String) (u : Student) (pid : String)
    (position : JobPosition) (a : Application)
    (hu : findStudent db uid = some u)
    (hp : findPosition db pid = some position)
    (ha : a ∈ db.applications) (has : a.student_id = u.id)
    (hap : a.position_id = position.id) :
    apply_to_position db (some (Role.student, uid)) pid =
      some (db, ["You already applied to this position."]) := by
  have hex : (db.applications.find?
      (fun x => x.student_id == u.id && x.position_id == position.id)).isSome := by
    rw [List.find?_isSome]
    exact ⟨a, ha, by simp [has, hap]⟩
  obtain ⟨b, hb⟩ := Option.isSome_iff_exists.mp hex
  simp [apply_to_position, current_user, hu, hp, hb]

/-- Claim C7: a student who already has a non-withdrawn application to a
position gets the advisory flash on a second apply and no new Application row
is created (the database is returned unchanged). -/
theorem C7_duplicate_apply_rejected (db : DB) (uid : String) (u : Student)
    (pid : String) (position : JobPosition) (a : Application)
    (hu : findStudent db uid = some u)
    (hp : findPosition db pid = some position)
    (ha : a ∈ db.applications) (has : a.student_id = u.id)
    (hap : a.position_id = position.id)
    (hnw : a.status ≠ "Withdrawn") :
    apply_to_position db (some (Role.student, uid)) pid =
      some (db, ["You already applied to this position."]) :=
  apply_blocked_by_existing db uid u pid position a hu hp ha has hap

/-- Witness for C7 on the fixture database with its Pending application. -/
theorem C7_duplicate_apply_witness :
    apply_to_position dbA (some (Role.student, "STU-2025-0001")) "POS-2025-0001" =
      some (dbA, ["You already applied to this position."]) :=
  C7_duplicate_apply_rejected dbA "STU-2025-0001" stuA "POS-2025-0001" posA appA
    rfl rfl (by decide) rfl rfl (by decide)

/-- Claim C10: the duplicate-application check also counts Withdrawn rows: an
existing application whose status is Withdrawn still blocks a further apply by
the same student to the same position, so withdrawing never re-enables
applying. -/
theorem C10_withdrawn_blocks_reapply (db : DB) (uid : String) (u : Student)
    (pid : String) (position : JobPosition) (a : Application)
    (hu : findStudent db uid = some u)
    (hp : findPosition db pid = some position)
    (ha : a ∈ db.applications) (has : a.student_id = u.id)
    (hap : a.position_id = position.id)
    (hw : a.status = "Withdrawn") :
    apply_to_position db (some (Role.student, uid)) pid =
      some (db, ["You already applied to this position."]) :=
  apply_blocked_by_existing db uid u pid position a hu hp ha has hap

/-- Witness for C10 on the fixture database whose application is Withdrawn. -/
theorem C10_withdrawn_blocks_witness :
    apply_to_position dbW (some (Role.student, "STU-2025-0001")) "POS-2025-0001" =
      some (dbW, ["You already applied to this position."]) :=
  C10_withdrawn_blocks_reapply dbW "STU-2025-0001" stuA "POS-2025-0001" posA appW
    rfl rfl (by decide) rfl rfl rfl

/-- If current_user reports the student role, the session literally holds the
student role and some user id, and the user component is that id's lookup. -/
lemma current_user_student_inv (db : DB) (sess : Session)
    (h1 : (current_user db sess).1 = some Role.student) :
    ∃ uid, sess = some (Role.student, uid) ∧
      (current_user db sess).2 = (findStudent db uid).map UserObj.student := by
  match sess with
  | none => simp [current_user] at h1
  | some (Role.student, uid) => exact ⟨uid, rfl, rfl⟩
  | some (Role.employer, uid) => simp [current_user] at h1
  | some (Role.faculty, uid) => simp [current_user] at h1

/-- Shared core of C6 and C8: an employer session, whoever it belongs to,
makes employer_reject set the found application's status to Rejected. -/
lemma reject_sets_status (db : DB) (uid : String) (app_id : Nat) (a : Application)
    (ha : findApplication db app_id = some a) :
    (findApplication (employer_reject db (some (Role.employer, uid)) app_id) app_id).map
      (fun x => x.status) = some "Rejected" := by
  have ha2 : db.applications.find? (fun x => x.id == app_id) = some a := ha
  have hid : (a.id == app_id) = true := by
    have h3 := List.find?_some ha2
    simpa using h3
  have haid : a.id = app_id := by simpa using hid
  have hred : employer_reject db (some (Role.employer, uid)) app_id = { db with applications := db.applications.map (fun x => if x.id == a.id then { x with status := "Rejected" } else x) } := by
    simp only [employer_reject, current_user]
    rw [ha]
    simp
  have hfound : (db.applications.map (fun x => if x.id == a.id then { x with status := "Rejected" } else x)).find? (fun x => x.id == app_id) = some { a with status := "Rejected" } :=
    find?_map_update db.applications (fun x => x.id == app_id)
      (fun x => x.id == a.id) a (fun x => { x with status := "Rejected" }) ha2
      (fun x => by rw [haid]) hid
  rw [hred]
  have h4 : findApplication { db with applications := db.applications.map (fun x => if x.id == a.id then { x with status := "Rejected" } else x) } app_id = some { a with status := "Rejected" } := hfound
  rw [h4]
  rfl

/-- Claim C8: with any employer session, employer_reject turns the target
application's status into Rejected and changes nothing else: every other
table of the database is untouched, every application other than the target is
kept as-is, and even the target keeps its identity columns. -/
theorem C8_reject_frame (db : DB) (uid : String) (app_id : Nat) (a : Application)
    (ha : findApplication db app_id = some a) :
    ((findApplication (employer_reject db (some (Role.employer, uid)) app_id) app_id).map
      (fun x => x.status) = some "Rejected") ∧
    (employer_reject db (some (Role.employer, uid)) app_id).positions = db.positions ∧
    (employer_reject db (some (Role.employer, uid)) app_id).eligibilities = db.eligibilities ∧
    (employer_reject db (some (Role.employer, uid)) app_id).selections = db.selections ∧
    (employer_reject db (some (Role.employer, uid)) app_id).coop_records = db.coop_records ∧
    (employer_reject db (some (Role.employer, uid)) app_id).students = db.students ∧
    (employer_reject db (some (Role.employer, uid)) app_id).employers = db.employers ∧
    (employer_reject db (some (Role.employer, uid)) app_id).faculty = db.faculty ∧
    (∀ x ∈ (employer_reject db (some (Role.employer, uid)) app_id).applications,
      x.id ≠ a.id → x ∈ db.applications) ∧
    (∀ x ∈ (employer_reject db (some (Role.employer, uid)) app_id).applications,
      ∃ y, y ∈ db.applications ∧ x.id = y.id ∧ x.student_id = y.student_id ∧
        x.position_id = y.position_id) := by
  have hred : employer_reject db (some (Role.employer, uid)) app_id = { db with applications := db.applications.map (fun x => if x.id == a.id then { x with status := "Rejected" } else x) } := by
    simp only [employer_reject, current_user]
    rw [ha]
    simp
  refine ⟨reject_sets_status db uid app_id a ha,
    by rw [hred], by rw [hred], by rw [hred], by rw [hred],
    by rw [hred], by rw [hred], by rw [hred], ?_, ?_⟩
  · intro x hx hne
    rw [hred] at hx
    obtain ⟨y, hy, hxy⟩ := List.mem_map.mp hx
    by_cases hya : (y.id == a.id) = true
    · rw [if_pos hya] at hxy
      have : x.id = a.id := by
        rw [← hxy]
        simpa using hya
      exact absurd this hne
    · rw [if_neg hya] at hxy
      rw [← hxy]
      exact hy
  · intro x hx
    rw [hred] at hx
    obtain ⟨y, hy, hxy⟩ := List.mem_map.mp hx
    by_cases hya : (y.id == a.id) = true
    · rw [if_pos hya] at hxy
      exact ⟨y, hy, by rw [← hxy], by rw [← hxy], by rw [← hxy]⟩
    · rw [if_neg hya] at hxy
      exact ⟨y, hy, by rw [← hxy], by rw [← hxy], by rw [← hxy]⟩

/-- Witness for C8 on the fixture database. -/
theorem C8_reject_frame_witness :
    ((findApplication (employer_reject dbA (some (Role.employer, "EMP-2025-0001")) 1) 1).map
      (fun x => x.status) = some "Rejected") ∧
    (employer_reject dbA (some (Role.employer, "EMP-2025-0001")) 1).eligibilities =
      dbA.eligibilities ∧
    (employer_reject dbA (some (Role.employer, "EMP-2025-0001")) 1).positions =
      dbA.positions :=
  ⟨(C8_reject_frame dbA "EMP-2025-0001" 1 appA rfl).1,
   (C8_reject_frame dbA "EMP-2025-0001" 1 appA rfl).2.2.1,
   (C8_reject_frame dbA "EMP-2025-0001" 1 appA rfl).2.1⟩

/-- Counterexample to claim C6: employer EMP-2025-0002 owns no position, in
particular not the position of application 1, yet a session logged in as that
employer mutates the application through employer_reject: the route checks the
role only, never that position.employer_id matches the session user. -/
theorem C6_reject_without_ownership :
    posA.employer_id ≠ empB.id ∧
    appA.position_id = posA.id ∧
    dbA.positions = [posA] ∧ dbA.applications = [appA] ∧ appA.status = "Pending" ∧
    (findApplication (employer_reject dbA (some (Role.employer, empB.id)) 1) 1).map
      (fun x => x.status) = some "Rejected" :=
  ⟨by decide, rfl, rfl, rfl, rfl, rfl⟩

/-- Claim C6 as amended: withdraw_application mutates the database only when
the session is a student session whose user row exists and owns the target
application, while employer_reject demands only the employer role: any
employer session, owner or not, turns an existing application Rejected. -/
theorem C6_ownership_only_for_withdraw (db : DB) (sess : Session) (app_id : Nat) :
    (∀ db2, withdraw_application db sess app_id = some db2 → db2 ≠ db →
      ∃ uid u a, sess = some (Role.student, uid) ∧ findStudent db uid = some u ∧
        findApplication db app_id = some a ∧ a.student_id = u.id) ∧
    (∀ a uid, findApplication db app_id = some a → sess = some (Role.employer, uid) →
      (findApplication (employer_reject db sess app_id) app_id).map
        (fun x => x.status) = some "Rejected") := by
  constructor
  · intro db2 hrun hne
    by_cases hrole : (current_user db sess).1 = some Role.student
    case neg =>
      have : some db = some db2 := by
        rw [← hrun]
        simp [withdraw_application, if_pos, hrole]
      exact absurd (Option.some.inj this).symm hne
    case pos =>
      obtain ⟨uid, hsess, hu2⟩ := current_user_student_inv db sess hrole
      cases hfa : findApplication db app_id with
      | none =>
        have : some db = some db2 := by
          rw [← hrun]
          simp [withdraw_application, hrole, hfa]
        exact absurd (Option.some.inj this).symm hne
      | some a =>
        cases hfs : findStudent db uid with
        | none =>
          have : (none : Option DB) = some db2 := by
            rw [← hrun]
            simp [withdraw_application, hrole, hfa, hsess, current_user, hfs]
          exact absurd this (by simp)
        | some u =>
          by_cases hown : a.student_id = u.id
          · exact ⟨uid, u, a, hsess, hfs, rfl, hown⟩
          · have : some db = some db2 := by
              rw [← hrun]
              simp [withdraw_application, hrole, hfa, hsess, current_user, hfs, hown]
            exact absurd (Option.some.inj this).symm hne
  · intro a uid hfa hsess
    rw [hsess]
    exact reject_sets_status db uid app_id a hfa

/-- Witness for the amended C6: a concrete non-owner employer session still
gets application 1 rejected. -/
theorem C6_ownership_witness :
    (findApplication (employer_reject dbA (some (Role.employer, "EMP-2025-0002")) 1) 1).map
      (fun x => x.status) = some "Rejected" :=
  (C6_ownership_only_for_withdraw dbA (some (Role.employer, "EMP-2025-0002")) 1).2 appA
    "EMP-2025-0002" rfl rfl

/-- Claim C4: employer_select, run by any employer session on an application
whose student, position and position owner all resolve, as one unit marks the
application Selected, marks the position Pending, appends exactly one
Selection row for the application, appends exactly one CoopEligibility row
whose five booleans are the result of check_eligibility on the application's
student and position, and emits the notification email to the student exactly
when that snapshot's is_eligible is true. -/
theorem C4_select_effects (db : DB) (uid : String) (app_id : Nat)
    (application : Application) (position : JobPosition) (student : Student)
    (employer : Employer)
    (hfind : findApplication db app_id = some application)
    (hpos : findPosition db application.position_id = some position)
    (hstu : findStudent db application.student_id = some student)
    (hemp : findEmployer db position.employer_id = some employer) :
    ∃ db2 emails,
      employer_select db (some (Role.employer, uid)) app_id = some (db2, emails) ∧
      (findApplication db2 app_id).map (fun a => a.status) = some "Selected" ∧
      (findPosition db2 application.position_id).map (fun p => p.status) =
        some (some "Pending") ∧
      (∃ sel, db2.selections = db.selections ++ [sel] ∧
        sel.application_id = application.id) ∧
      (∃ e, db2.eligibilities = db.eligibilities ++ [e] ∧
        e.application_id = application.id ∧
        e.is_eligible = (check_eligibility student position).is_eligible ∧
        e.gpa_ok = (check_eligibility student position).gpa_ok ∧
        e.weeks_ok = (check_eligibility student position).weeks_ok ∧
        e.hours_ok = (check_eligibility student position).hours_ok ∧
        e.semesters_ok = (check_eligibility student position).semesters_ok) ∧
      ((check_eligibility student position).is_eligible = true →
        emails = [selectionEmail student position employer]) ∧
      ((check_eligibility student position).is_eligible = false → emails = []) := by
  have hfind2 : db.applications.find? (fun x => x.id == app_id) = some application := hfind
  have haid : application.id = app_id := by
    have h3 := List.find?_some hfind2
    simpa using h3
  have hpos2 : db.positions.find? (fun x => x.id == application.position_id) = some position := hpos
  have hpid : position.id = application.position_id := by
    have h3 := List.find?_some hpos2
    simpa using h3
  have hred : employer_select db (some (Role.employer, uid)) app_id = some ({ db with applications := db.applications.map (fun x => if x.id == application.id then { application with status := "Selected" } else x), positions := db.positions.map (fun x => if x.id == position.id then { position with status := some "Pending" } else x), selections := db.selections ++ [{ id := nextSelectionId db, application_id := application.id, offer_letter_filename := none }], eligibilities := db.eligibilities ++ [{ id := nextEligibilityId db, application_id := application.id, is_eligible := (check_eligibility student position).is_eligible, gpa_ok := (check_eligibility student position).gpa_ok, weeks_ok := (check_eligibility student position).weeks_ok, hours_ok := (check_eligibility student position).hours_ok, semesters_ok := (check_eligibility student position).semesters_ok }] }, if (check_eligibility student position).is_eligible then [selectionEmail student position employer] else []) := by
    simp only [employer_select, current_user, hfind, hpos, hstu, hemp]
    simp
  refine ⟨_, _, hred, ?_, ?_, ⟨_, rfl, rfl⟩, ⟨_, rfl, rfl, rfl, rfl, rfl, rfl, rfl⟩, ?_, ?_⟩
  · have hfound : (db.applications.map (fun x => if x.id == application.id then { application with status := "Selected" } else x)).find? (fun x => x.id == app_id) = some { application with status := "Selected" } :=
      find?_map_update db.applications (fun x => x.id == app_id)
        (fun x => x.id == application.id) application
        (fun _ => { application with status := "Selected" }) hfind2
        (fun x => by rw [haid]) (by simpa using haid)
    have h4 : findApplication { db with applications := db.applications.map (fun x => if x.id == application.id then { application with status := "Selected" } else x), positions := db.positions.map (fun x => if x.id == position.id then { position with status := some "Pending" } else x), selections := db.selections ++ [{ id := nextSelectionId db, application_id := application.id, offer_letter_filename := none }], eligibilities := db.eligibilities ++ [{ id := nextEligibilityId db, application_id := application.id, is_eligible := (check_eligibility student position).is_eligible, gpa_ok := (check_eligibility student position).gpa_ok, weeks_ok := (check_eligibility student position).weeks_ok, hours_ok := (check_eligibility student position).hours_ok, semesters_ok := (check_eligibility student position).semesters_ok }] } app_id = some { application with status := "Selected" } := hfound
    rw [h4]
    rfl
  · have hfound : (db.positions.map (fun x => if x.id == position.id then { position with status := some "Pending" } else x)).find? (fun x => x.id == application.position_id) = some { position with status := some "Pending" } :=
      find?_map_update db.positions (fun x => x.id == application.position_id)
        (fun x => x.id == position.id) position
        (fun _ => { position with status := some "Pending" }) hpos2
        (fun x => by rw [hpid]) (by simpa using hpid)
    have h4 : findPosition { db with applications := db.applications.map (fun x => if x.id == application.id then { application with status := "Selected" } else x), positions := db.positions.map (fun x => if x.id == position.id then { position with status := some "Pending" } else x), selections := db.selections ++ [{ id := nextSelectionId db, application_id := application.id, offer_letter_filename := none }], eligibilities := db.eligibilities ++ [{ id := nextEligibilityId db, application_id := application.id, is_eligible := (check_eligibility student position).is_eligible, gpa_ok := (check_eligibility student position).gpa_ok, weeks_ok := (check_eligibility student position).weeks_ok, hours_ok := (check_eligibility student position).hours_ok, semesters_ok := (check_eligibility student position).semesters_ok }] } application.position_id = some { position with status := some "Pending" } := hfound
    rw [h4]
    rfl
  · intro h
    rw [if_pos h]
  · intro h
    rw [if_neg (by rw [h]; exact Bool.false_ne_true)]

/-- Witness for C4: the end-to-end fixture (gpa 3.0, weeks 10, 15 hours per
week, total 150) yields Selected, Pending, an all-true snapshot, and an email
to the student. -/
theorem C4_select_effects_witness :
    (findApplication dbA 1 = some appA) ∧
    (findPosition dbA appA.position_id = some posA) ∧
    (∃ db2 emails,
      employer_select dbA (some (Role.employer, "EMP-2025-0001")) 1 =
        some (db2, emails) ∧
      (findApplication db2 1).map (fun a => a.status) = some "Selected" ∧
      emails = [selectionEmail stuA posA empA]) := by
  obtain ⟨db2, emails, heq, hst, _, _, _, hyes, _⟩ :=
    C4_select_effects dbA "EMP-2025-0001" 1 appA posA stuA empA rfl rfl rfl rfl
  exact ⟨rfl, rfl, db2, emails, heq, hst, hyes rfl⟩

end CoopPortal
